import Mathlib

/-!
Shallow embedding of the gallery-back Express server (src/server.js and
src/unnamed/part_000): Memory and Group CRUD handlers over a Mongo-style
document store, with image blobs stored at a Cloudinary media host via a
multer upload middleware.

Modelling conventions:
* A Mongo collection is a `List` of records; `_id` is a `Nat`.
* `findById` is `List.find?` on the id; `findByIdAndDelete` filters the id
  out; `save` on a fetched document writes it back by id (`List.map`).
* Dates are kept as the strings the HTTP layer receives.
* JS truthiness for the `x || y` update pattern: `undefined` and `""` are
  falsy, any other string is truthy (`jsOr`).
* Mongoose `required` validation on `save`: a required String path fails on
  an unset (`""`-modelled) or empty value (`memValid`, `groupValid`); the
  `trim: true` setter on `title`/`name` is applied on assignment.
* The Cloudinary calls made by a request are returned as an event trace
  (`MediaEvent`), in call order.  The multer `upload.single` middleware runs
  before the handler body, so an attached file produces its `store` event
  first.
* `cloudinary.uploader.destroy` either resolves (with a result string the
  code ignores) or rejects; a rejection is thrown into the handler's
  `catch` block (`DestroyBehavior`).
-/

namespace GalleryBack

/-- A Memory document (memorySchema in the source). -/
structure MemoryRec where
  id : Nat
  title : String
  date : String
  description : String
  imageUrl : String
  imagePublicId : String
  special : Option String
  createdAt : Nat
deriving Repr, DecidableEq

/-- A Group document (groupSchema in the source). -/
structure GroupRec where
  id : Nat
  name : String
  description : Option String
  memoryIds : List Nat
  createdAt : Nat
deriving Repr, DecidableEq

/-- `req.file` as produced by the Cloudinary multer storage: `path` is the
hosted URL, `filename` the public id. -/
structure UploadedFile where
  path : String
  filename : String
deriving Repr, DecidableEq

/-- One call to the media adapter, in the order the request makes them. -/
inductive MediaEvent where
  | store (url publicId : String)
  | destroy (publicId : String)
deriving Repr, DecidableEq

/-- Outcome of the `cloudinary.uploader.destroy` promise: it resolves with a
result string (which the handlers never inspect) or rejects. -/
inductive DestroyBehavior where
  | resolve (result : String)
  | reject
deriving Repr, DecidableEq

/-- Response bodies the handlers produce. -/
inductive ResBody where
  | errorMsg (s : String)
  | message (s : String)
  | memory (m : MemoryRec)
  | memories (l : List MemoryRec)
  | group (g : GroupRec)
  | groups (l : List GroupRec)
deriving Repr, DecidableEq

/-- An HTTP response: status code plus JSON body. -/
structure HttpRes where
  status : Nat
  body : ResBody
deriving Repr, DecidableEq

/-- Mongoose's `trim: true` setter: strip leading and trailing whitespace
(modelled over the string's character list so that it evaluates by
kernel reduction). -/
def strTrim (s : String) : String :=
  ⟨((s.data.dropWhile Char.isWhitespace).reverse.dropWhile
      Char.isWhitespace).reverse⟩

/-- JS `v || old` where `v` is an optional request-body string: `undefined`
and `""` are falsy, so `old` is kept for them. -/
def jsOr (v : Option String) (old : String) : String :=
  match v with
  | none => old
  | some s => if s = "" then old else s

/-- JS `v || old` when the stored field is itself optional (`special`). -/
def jsOrOpt (v old : Option String) : Option String :=
  match v with
  | none => old
  | some s => if s = "" then old else some s

/-- Mongoose `required` validation of a Memory document: `title`, `date`,
`description`, `imageUrl`, `imagePublicId` must be set and non-empty. -/
def memValid (m : MemoryRec) : Bool :=
  m.title != "" && m.date != "" && m.description != "" &&
    m.imageUrl != "" && m.imagePublicId != ""

/-- Mongoose `required` validation of a Group document: only `name`. -/
def groupValid (g : GroupRec) : Bool :=
  g.name != ""

/-- `Memory.findById`. -/
def findMemory (db : List MemoryRec) (id : Nat) : Option MemoryRec :=
  db.find? (fun m => m.id == id)

/-- `Group.findById`-style lookup used by the group handlers. -/
def findGroup (db : List GroupRec) (id : Nat) : Option GroupRec :=
  db.find? (fun g => g.id == id)

/-- `Memory.find().sort({ createdAt: -1 })`: all rows, `createdAt`
descending. -/
def listMemories (db : List MemoryRec) : List MemoryRec :=
  db.mergeSort (fun a b => Nat.ble b.createdAt a.createdAt)

/-- GET /api/memories. -/
def getMemoriesRoute (db : List MemoryRec) : HttpRes :=
  ⟨200, .memories (listMemories db)⟩

/-- Multipart body of POST /api/memories after the upload middleware. -/
structure MemCreateReq where
  title : Option String
  date : Option String
  description : Option String
  special : Option String
  file : Option UploadedFile
deriving Repr, DecidableEq

/-- The document `new Memory({...})` builds in the create handler. -/
def newMemory (req : MemCreateReq) (f : UploadedFile) (freshId now : Nat) :
    MemoryRec :=
  { id := freshId
    title := strTrim (req.title.getD "")
    date := req.date.getD ""
    description := req.description.getD ""
    imageUrl := f.path
    imagePublicId := f.filename
    special := req.special
    createdAt := now }

/-- POST /api/memories: upload middleware (store event) runs first when a
file is attached; without a file the handler returns 400 before any store
or persist call; `save` appends on successful validation. -/
def postMemoryRoute (db : List MemoryRec) (req : MemCreateReq)
    (freshId now : Nat) : HttpRes × List MemoryRec × List MediaEvent :=
  match req.file with
  | none => (⟨400, .errorMsg "Image is required"⟩, db, [])
  | some f =>
      let m := newMemory req f freshId now
      if memValid m then
        (⟨201, .memory m⟩, db ++ [m], [.store f.path f.filename])
      else
        (⟨500, .errorMsg "Server error"⟩, db, [.store f.path f.filename])

/-- DELETE /api/memories/:id: find the row, `destroy` the blob, then delete
the row.  A rejected `destroy` is thrown into the catch block (500) before
`findByIdAndDelete` runs. -/
def deleteMemoryRoute (db : List MemoryRec) (id : Nat)
    (beh : DestroyBehavior) : HttpRes × List MemoryRec × List MediaEvent :=
  match findMemory db id with
  | none => (⟨404, .errorMsg "Memory not found"⟩, db, [])
  | some m =>
      match beh with
      | .resolve _ =>
          (⟨200, .message "Memory deleted successfully"⟩,
            db.filter (fun x => x.id != id), [.destroy m.imagePublicId])
      | .reject =>
          (⟨500, .errorMsg "Server error"⟩, db, [.destroy m.imagePublicId])

/-- Multipart body of PUT /api/memories/:id after the upload middleware. -/
structure MemUpdateReq where
  title : Option String
  date : Option String
  description : Option String
  special : Option String
  file : Option UploadedFile
deriving Repr, DecidableEq

/-- The `memory.title = title || memory.title` block of the update handler
(the `trim` setter runs on assignment to `title`). -/
def applyTextFields (m : MemoryRec) (req : MemUpdateReq) : MemoryRec :=
  { m with
    title := strTrim (jsOr req.title m.title)
    date := jsOr req.date m.date
    description := jsOr req.description m.description
    special := jsOrOpt req.special m.special }

/-- The store events emitted by `upload.single("image")` before the PUT
handler body runs. -/
def uploadMiddlewareEvents (file : Option UploadedFile) : List MediaEvent :=
  match file with
  | some f => [.store f.path f.filename]
  | none => []

/-- PUT /api/memories/:id: middleware stores any attached file first, then
the handler resolves the id (404 if absent), applies truthy text fields,
and — only when a file was attached — destroys the old blob and swaps in
the new `imageUrl`/`imagePublicId`; a rejected destroy is thrown (500,
nothing saved). -/
def putMemoryRoute (db : List MemoryRec) (id : Nat) (req : MemUpdateReq)
    (beh : DestroyBehavior) : HttpRes × List MemoryRec × List MediaEvent :=
  let mw := uploadMiddlewareEvents req.file
  match findMemory db id with
  | none => (⟨404, .errorMsg "Memory not found"⟩, db, mw)
  | some m =>
      let m1 := applyTextFields m req
      match req.file with
      | none =>
          if memValid m1 then
            (⟨200, .memory m1⟩,
              db.map (fun x => if x.id == id then m1 else x), mw)
          else
            (⟨500, .errorMsg "Server error"⟩, db, mw)
      | some f =>
          match beh with
          | .reject =>
              (⟨500, .errorMsg "Server error"⟩, db,
                mw ++ [.destroy m.imagePublicId])
          | .resolve _ =>
              let m2 := { m1 with imageUrl := f.path,
                                  imagePublicId := f.filename }
              if memValid m2 then
                (⟨200, .memory m2⟩,
                  db.map (fun x => if x.id == id then m2 else x),
                  mw ++ [.destroy m.imagePublicId])
              else
                (⟨500, .errorMsg "Server error"⟩, db,
                  mw ++ [.destroy m.imagePublicId])

/-- JSON body of POST /api/groups and PUT /api/groups/:id. -/
structure GroupReq where
  name : Option String
  description : Option String
  memoryIds : Option (List Nat)
deriving Repr, DecidableEq

/-- GET /api/groups: `Group.find()`, natural order. -/
def getGroupsRoute (db : List GroupRec) : HttpRes :=
  ⟨200, .groups db⟩

/-- The document `new Group({ name, description, memoryIds: memoryIds || [] })`
builds: an absent `memoryIds` defaults to the empty list (an explicit `[]`
is truthy in JS and kept as is). -/
def newGroup (req : GroupReq) (freshId now : Nat) : GroupRec :=
  { id := freshId
    name := strTrim (req.name.getD "")
    description := req.description
    memoryIds := req.memoryIds.getD []
    createdAt := now }

/-- POST /api/groups. -/
def postGroupRoute (db : List GroupRec) (req : GroupReq)
    (freshId now : Nat) : HttpRes × List GroupRec :=
  let g := newGroup req freshId now
  if groupValid g then
    (⟨201, .group g⟩, db ++ [g])
  else
    (⟨500, .errorMsg "Server error"⟩, db)

/-- The update document `{ name, description, memoryIds }` the group PUT
handler passes to `findByIdAndUpdate`: each request-body field is passed
through verbatim, absent fields as `undefined` (`none`). -/
structure GroupUpdateDoc where
  name : Option String
  description : Option String
  memoryIds : Option (List Nat)
deriving Repr, DecidableEq

/-- Builds the update document from the request body. -/
def groupUpdateDoc (req : GroupReq) : GroupUpdateDoc :=
  { name := req.name, description := req.description,
    memoryIds := req.memoryIds }

/-- `findByIdAndUpdate` applying the update document to a stored group:
fields given (`some`) overwrite, with the `trim` setter on `name`; keys
whose value is `undefined` are stripped from the update by the store
(Mongoose's default), so those fields are retained. -/
def applyGroupUpdate (doc : GroupUpdateDoc) (g : GroupRec) : GroupRec :=
  { g with
    name := match doc.name with | some n => strTrim n | none => g.name
    description := match doc.description with
                   | some d => some d
                   | none => g.description
    memoryIds := doc.memoryIds.getD g.memoryIds }

/-- PUT /api/groups/:id: `findByIdAndUpdate(id, { name, description,
memoryIds }, { new: true })`; 404 when the id does not resolve. -/
def putGroupRoute (db : List GroupRec) (id : Nat) (req : GroupReq) :
    HttpRes × List GroupRec :=
  match findGroup db id with
  | none => (⟨404, .errorMsg "Group not found"⟩, db)
  | some g =>
      let g1 := applyGroupUpdate (groupUpdateDoc req) g
      (⟨200, .group g1⟩, db.map (fun x => if x.id == id then g1 else x))

/-- DELETE /api/groups/:id. -/
def deleteGroupRoute (db : List GroupRec) (id : Nat) :
    HttpRes × List GroupRec :=
  match findGroup db id with
  | none => (⟨404, .errorMsg "Group not found"⟩, db)
  | some _ =>
      (⟨200, .message "Group deleted successfully"⟩,
        db.filter (fun x => x.id != id))

/-- Does some `destroy` call occur strictly before some `store` call? -/
def destroyBeforeStore : List MediaEvent → Bool
  | [] => false
  | e :: rest =>
      (match e with
       | .destroy _ => rest.any (fun x => match x with
           | .store _ _ => true
           | _ => false)
       | _ => false)
      || destroyBeforeStore rest

/-- Sample stored Memory row used by concrete witnesses. -/
def mem1 : MemoryRec :=
  { id := 1, title := "t", date := "2024-01-01", description := "d",
    imageUrl := "u1", imagePublicId := "p1", special := none,
    createdAt := 10 }

/-- Second sample Memory row with an earlier `createdAt`. -/
def mem2 : MemoryRec :=
  { id := 2, title := "t2", date := "2024-01-02", description := "d2",
    imageUrl := "u2", imagePublicId := "p2", special := some "s",
    createdAt := 5 }

/-- Sample stored Group row used by concrete witnesses. -/
def grp1 : GroupRec :=
  { id := 1, name := "g", description := some "gd", memoryIds := [7, 8],
    createdAt := 3 }

/-- Sample uploaded file (new blob) used by concrete witnesses. -/
def fileNew : UploadedFile := { path := "u9", filename := "p9" }

/-- Sample image-bearing update request used by concrete witnesses. -/
def updReqImg : MemUpdateReq :=
  { title := none, date := none, description := none, special := none,
    file := some fileNew }

/-!  Theorems settling the specification claims. -/

/-- C1 counterexample: with one stored row and a rejecting media-adapter
delete call, DELETE /api/memories/:id responds 500 and the row is still
present afterwards — the operation does not continue past the failed blob
delete, contrary to the claim. -/
theorem delete_memory_rejected_destroy_keeps_row :
    deleteMemoryRoute [mem1] 1 .reject =
      (⟨500, .errorMsg "Server error"⟩, [mem1], [.destroy "p1"]) ∧
    findMemory (deleteMemoryRoute [mem1] 1 .reject).2.1 1 = some mem1 := by
  constructor <;> decide

/-- C1 (amended): on an existing id, Delete attempts the blob destroy
first; whenever the destroy call resolves — with any result string, which
the code ignores — the row is removed (200, row absent afterwards); when
the destroy call rejects, the handler responds 500 and the database is
unchanged, the row still present. -/
theorem delete_memory_row_removed_iff_destroy_resolves
    (db : List MemoryRec) (id : Nat) (m : MemoryRec)
    (h : findMemory db id = some m) :
    (∀ r, deleteMemoryRoute db id (.resolve r) =
        (⟨200, .message "Memory deleted successfully"⟩,
          db.filter (fun x => x.id != id), [.destroy m.imagePublicId])) ∧
    findMemory (db.filter (fun x => x.id != id)) id = none ∧
    deleteMemoryRoute db id .reject =
      (⟨500, .errorMsg "Server error"⟩, db, [.destroy m.imagePublicId]) := by
  refine ⟨fun r => ?_, ?_, ?_⟩
  · simp [deleteMemoryRoute, h]
  · rw [findMemory, List.find?_eq_none]
    intro x hx
    rw [List.mem_filter] at hx
    simpa using hx.2
  · simp [deleteMemoryRoute, h]

/-- Witness for the amended C1 at a concrete input. -/
theorem delete_memory_row_removed_iff_destroy_resolves_witness :
    deleteMemoryRoute [mem1] 1 (.resolve "ok") =
      (⟨200, .message "Memory deleted successfully"⟩, [],
        [.destroy "p1"]) :=
  ((delete_memory_row_removed_iff_destroy_resolves [mem1] 1 mem1
    (by decide)).1 "ok").trans (by decide)

/-- C4: POST /api/memories without an attached image responds 400 with
body {error: "Image is required"}; no media-adapter store call and no
record-store persist is performed. -/
theorem create_memory_without_image_400_no_calls
    (db : List MemoryRec) (req : MemCreateReq) (freshId now : Nat)
    (h : req.file = none) :
    postMemoryRoute db req freshId now =
      (⟨400, .errorMsg "Image is required"⟩, db, []) := by
  simp [postMemoryRoute, h]

/-- Witness for C4 at a concrete input. -/
theorem create_memory_without_image_400_no_calls_witness :
    postMemoryRoute [] ⟨some "t", some "d", some "x", none, none⟩ 1 0 =
      (⟨400, .errorMsg "Image is required"⟩, [], []) :=
  create_memory_without_image_400_no_calls [] _ 1 0 rfl

/-- C10: PUT /api/memories/:id with an attached image on an id that does
not resolve still performs exactly one media-adapter store call (the
upload middleware runs before the id check), then responds 404 with the
database unchanged, leaving the fresh blob orphaned. -/
theorem update_memory_missing_id_orphan_store
    (db : List MemoryRec) (id : Nat) (req : MemUpdateReq)
    (f : UploadedFile) (beh : DestroyBehavior)
    (h : findMemory db id = none) (hf : req.file = some f) :
    putMemoryRoute db id req beh =
      (⟨404, .errorMsg "Memory not found"⟩, db,
        [.store f.path f.filename]) := by
  simp [putMemoryRoute, uploadMiddlewareEvents, h, hf]

/-- Witness for C10 at a concrete input. -/
theorem update_memory_missing_id_orphan_store_witness :
    putMemoryRoute [] 1 updReqImg .reject =
      (⟨404, .errorMsg "Memory not found"⟩, [], [.store "u9" "p9"]) :=
  (update_memory_missing_id_orphan_store [] 1 updReqImg fileNew .reject
    rfl rfl).trans (by decide)

/-- C2 counterexample: at a concrete existing id with a new image, the
media-adapter calls are [store, destroy] — the store call (made by the
upload middleware) comes first, so no destroy call happens before the
store call, contrary to the claimed delete-before-store order; moreover,
when the destroy call rejects the handler responds 500 with the record
not updated, so the update does not complete. -/
theorem update_memory_store_precedes_destroy_and_reject_aborts :
    (putMemoryRoute [mem1] 1 updReqImg (.resolve "ok")).2.2 =
      [.store "u9" "p9", .destroy "p1"] ∧
    destroyBeforeStore
      (putMemoryRoute [mem1] 1 updReqImg (.resolve "ok")).2.2 = false ∧
    putMemoryRoute [mem1] 1 updReqImg .reject =
      (⟨500, .errorMsg "Server error"⟩, [mem1],
        [.store "u9" "p9", .destroy "p1"]) := by
  refine ⟨by decide, by decide, by decide⟩

/-- C2 (amended): Update on an existing id with a new image performs
exactly one media-adapter store call (by the upload middleware, before the
handler body) and exactly one delete call for the old blob, in that order
— store before delete.  When the delete call resolves, the update
completes with imageUrl/imagePublicId replaced together by the stored
blob's values; when the delete call rejects, the handler responds 500 and
no record update is persisted. -/
theorem update_memory_with_image_one_store_then_one_destroy
    (db : List MemoryRec) (id : Nat) (req : MemUpdateReq) (m : MemoryRec)
    (f : UploadedFile) (m2 : MemoryRec)
    (h : findMemory db id = some m) (hf : req.file = some f)
    (hm2 : m2 = { applyTextFields m req with
                  imageUrl := f.path, imagePublicId := f.filename })
    (hv : memValid m2 = true) :
    (∀ r, putMemoryRoute db id req (.resolve r) =
        (⟨200, .memory m2⟩,
          db.map (fun x => if x.id == id then m2 else x),
          [.store f.path f.filename, .destroy m.imagePublicId])) ∧
    putMemoryRoute db id req .reject =
      (⟨500, .errorMsg "Server error"⟩, db,
        [.store f.path f.filename, .destroy m.imagePublicId]) := by
  subst hm2
  constructor
  · intro r
    simp [putMemoryRoute, uploadMiddlewareEvents, h, hf, hv]
  · simp [putMemoryRoute, uploadMiddlewareEvents, h, hf]

/-- Witness for the amended C2 at a concrete input. -/
theorem update_memory_with_image_one_store_then_one_destroy_witness :
    putMemoryRoute [mem1] 1 updReqImg (.resolve "done") =
      (⟨200, .memory { mem1 with imageUrl := "u9", imagePublicId := "p9" }⟩,
        [{ mem1 with imageUrl := "u9", imagePublicId := "p9" }],
        [.store "u9" "p9", .destroy "p1"]) :=
  ((update_memory_with_image_one_store_then_one_destroy [mem1] 1 updReqImg
      mem1 fileNew _ (by decide) rfl rfl (by decide)).1 "done").trans
    (by decide)

/-- C3 counterexample: PUT /api/memories/:id with an attached image on an
id not present in the store responds 404, yet a media-adapter store call
did occur (its event trace is non-empty), contrary to the claim that no
media-adapter call occurs. -/
theorem update_memory_missing_id_media_call_occurs :
    putMemoryRoute [] 1 updReqImg (.resolve "ok") =
      (⟨404, .errorMsg "Memory not found"⟩, [], [.store "u9" "p9"]) ∧
    (putMemoryRoute [] 1 updReqImg (.resolve "ok")).2.2 ≠ [] := by
  constructor <;> decide

/-- C3 (amended): for ids not present in the store, Update and Delete on
Memory and Group return 404 with body {error: "<Entity> not found"} and
perform no record-store write and no media-adapter delete call; however,
PUT /api/memories/:id with an attached image performs one media-adapter
store call (upload middleware) before the id check — its event trace
holds store events only, and is empty when no image is attached.  The
memory Delete and both Group handlers make no media-adapter call. -/
theorem not_found_404_no_mutation
    (mdb : List MemoryRec) (gdb : List GroupRec) (mid gid : Nat)
    (hm : findMemory mdb mid = none) (hg : findGroup gdb gid = none) :
    (∀ req beh, putMemoryRoute mdb mid req beh =
        (⟨404, .errorMsg "Memory not found"⟩, mdb,
          uploadMiddlewareEvents req.file)) ∧
    (∀ file, (uploadMiddlewareEvents file).all
        (fun e => match e with
          | .store _ _ => true
          | .destroy _ => false) = true) ∧
    uploadMiddlewareEvents none = [] ∧
    (∀ beh, deleteMemoryRoute mdb mid beh =
        (⟨404, .errorMsg "Memory not found"⟩, mdb, [])) ∧
    (∀ req, putGroupRoute gdb gid req =
        (⟨404, .errorMsg "Group not found"⟩, gdb)) ∧
    deleteGroupRoute gdb gid = (⟨404, .errorMsg "Group not found"⟩, gdb) := by
  refine ⟨fun req beh => ?_, fun file => ?_, rfl, fun beh => ?_,
    fun req => ?_, ?_⟩
  · simp [putMemoryRoute, hm]
  · cases file <;> simp [uploadMiddlewareEvents]
  · simp [deleteMemoryRoute, hm]
  · simp [putGroupRoute, hg]
  · simp [deleteGroupRoute, hg]

/-- Witness for the amended C3 at concrete inputs. -/
theorem not_found_404_no_mutation_witness :
    deleteMemoryRoute [] 1 .reject =
      (⟨404, .errorMsg "Memory not found"⟩, [], []) ∧
    putGroupRoute [] 1 ⟨some "n", none, none⟩ =
      (⟨404, .errorMsg "Group not found"⟩, []) :=
  ⟨(not_found_404_no_mutation [] [] 1 1 rfl rfl).2.2.2.1 .reject,
   (not_found_404_no_mutation [] [] 1 1 rfl rfl).2.2.2.2.1
     ⟨some "n", none, none⟩⟩

/-- C5: on an existing id, an Update supplying only a (truthy) description
and no image leaves title, date, special, imageUrl and imagePublicId at
their prior values and replaces only description; no media-adapter call is
made.  (The stored row is assumed valid with a trimmed title, as every row
this API creates is.) -/
theorem update_memory_description_only_frame
    (db : List MemoryRec) (id : Nat) (m : MemoryRec) (d : String)
    (beh : DestroyBehavior)
    (h : findMemory db id = some m) (hv : memValid m = true)
    (ht : strTrim m.title = m.title) (hd : d ≠ "") :
    putMemoryRoute db id ⟨none, none, some d, none, none⟩ beh =
      (⟨200, .memory { m with description := d }⟩,
        db.map (fun x => if x.id == id then { m with description := d }
          else x),
        []) := by
  have h1 : applyTextFields m ⟨none, none, some d, none, none⟩ =
      { m with description := d } := by
    simp [applyTextFields, jsOr, jsOrOpt, hd, ht]
  have hv2 : memValid { m with description := d } = true := by
    simp only [memValid, Bool.and_eq_true, bne_iff_ne, ne_eq] at hv ⊢
    tauto
  simp [putMemoryRoute, uploadMiddlewareEvents, h, h1, hv2]

/-- Witness for C5 at a concrete input. -/
theorem update_memory_description_only_frame_witness :
    putMemoryRoute [mem1] 1 ⟨none, none, some "nd", none, none⟩ .reject =
      (⟨200, .memory { mem1 with description := "nd" }⟩,
        [{ mem1 with description := "nd" }], []) :=
  (update_memory_description_only_frame [mem1] 1 mem1 "nd" .reject
    (by decide) (by decide) (by decide) (by decide)).trans (by decide)

/-- C6: GET /api/memories responds 200 with the full collection (the
returned list is a permutation of the stored rows — no filtering, no
pagination) ordered by createdAt nonincreasing; when the stored createdAt
values are pairwise distinct the order is strictly descending. -/
theorem list_memories_sorted_desc (db : List MemoryRec) :
    getMemoriesRoute db = ⟨200, .memories (listMemories db)⟩ ∧
    (listMemories db).Perm db ∧
    (listMemories db).Pairwise (fun a b => b.createdAt ≤ a.createdAt) ∧
    (db.Pairwise (fun a b => a.createdAt ≠ b.createdAt) →
      (listMemories db).Pairwise (fun a b => b.createdAt < a.createdAt)) := by
  have hperm : (listMemories db).Perm db := List.mergeSort_perm db _
  have htrans : ∀ a b c : MemoryRec,
      Nat.ble b.createdAt a.createdAt = true →
      Nat.ble c.createdAt b.createdAt = true →
      Nat.ble c.createdAt a.createdAt = true := by
    intro a b c hab hbc
    simp only [Nat.ble_eq] at *
    omega
  have htotal : ∀ a b : MemoryRec,
      (Nat.ble b.createdAt a.createdAt ||
        Nat.ble a.createdAt b.createdAt) = true := by
    intro a b
    simp only [Bool.or_eq_true, Nat.ble_eq]
    omega
  have hsorted : (listMemories db).Pairwise
      (fun a b => b.createdAt ≤ a.createdAt) := by
    have hs := List.sorted_mergeSort htrans htotal db
    exact hs.imp (fun hab => by simpa using hab)
  refine ⟨rfl, hperm, hsorted, fun hne => ?_⟩
  have hne2 : (listMemories db).Pairwise
      (fun a b => a.createdAt ≠ b.createdAt) :=
    (hperm.pairwise_iff (fun hxy => hxy.symm)).mpr hne
  exact hsorted.imp₂ (fun a b hle hneq => lt_of_le_of_ne hle
    (fun e => hneq e.symm)) hne2

/-- Witness for C6 at a concrete input with distinct timestamps. -/
theorem list_memories_sorted_desc_witness :
    (listMemories [mem2, mem1]).Pairwise
      (fun a b => b.createdAt < a.createdAt) :=
  (list_memories_sorted_desc [mem2, mem1]).2.2.2 (by decide)

/-- C7: on an existing id, the group Update has full-field replace
semantics: the update document passes every request-body field through
verbatim — absent fields as undefined (`none`) — and every field given in
the body, including an explicit empty memoryIds list, overwrites the
stored value; the handler responds 200 with the rewritten row. -/
theorem group_update_full_replace
    (db : List GroupRec) (id : Nat) (req : GroupReq) (g : GroupRec)
    (h : findGroup db id = some g) :
    putGroupRoute db id req =
      (⟨200, .group (applyGroupUpdate (groupUpdateDoc req) g)⟩,
        db.map (fun x => if x.id == id then
          applyGroupUpdate (groupUpdateDoc req) g else x)) ∧
    (groupUpdateDoc req).name = req.name ∧
    (groupUpdateDoc req).description = req.description ∧
    (groupUpdateDoc req).memoryIds = req.memoryIds ∧
    (∀ ids, req.memoryIds = some ids →
      (applyGroupUpdate (groupUpdateDoc req) g).memoryIds = ids) ∧
    (∀ n, req.name = some n →
      (applyGroupUpdate (groupUpdateDoc req) g).name = strTrim n) ∧
    (∀ d, req.description = some d →
      (applyGroupUpdate (groupUpdateDoc req) g).description = some d) := by
  refine ⟨?_, rfl, rfl, rfl, ?_, ?_, ?_⟩
  · simp [putGroupRoute, h]
  · intro ids hids
    simp [applyGroupUpdate, groupUpdateDoc, hids]
  · intro n hn
    simp [applyGroupUpdate, groupUpdateDoc, hn]
  · intro d hd
    simp [applyGroupUpdate, groupUpdateDoc, hd]

/-- Witness for C7 at a concrete input: an explicit empty memoryIds list
overwrites the stored list. -/
theorem group_update_full_replace_witness :
    putGroupRoute [grp1] 1 ⟨none, none, some []⟩ =
      (⟨200, .group { grp1 with memoryIds := [] }⟩,
        [{ grp1 with memoryIds := [] }]) :=
  ((group_update_full_replace [grp1] 1 ⟨none, none, some []⟩ grp1
    (by decide)).1).trans (by decide)

/-- C8: Create(Group) with memoryIds=[a,b] persists the pair in insertion
order and responds 201; a subsequent group list read returns the stored
collection containing that group with memoryIds=[a,b]; Create with
memoryIds omitted persists the empty sequence. -/
theorem group_create_roundtrip
    (db : List GroupRec) (a b freshId now : Nat) (nm : String)
    (hn : strTrim nm ≠ "") :
    postGroupRoute db ⟨some nm, none, some [a, b]⟩ freshId now =
      (⟨201, .group (newGroup ⟨some nm, none, some [a, b]⟩ freshId now)⟩,
        db ++ [newGroup ⟨some nm, none, some [a, b]⟩ freshId now]) ∧
    getGroupsRoute
        (db ++ [newGroup ⟨some nm, none, some [a, b]⟩ freshId now]) =
      ⟨200, .groups
        (db ++ [newGroup ⟨some nm, none, some [a, b]⟩ freshId now])⟩ ∧
    newGroup ⟨some nm, none, some [a, b]⟩ freshId now ∈
      db ++ [newGroup ⟨some nm, none, some [a, b]⟩ freshId now] ∧
    (newGroup ⟨some nm, none, some [a, b]⟩ freshId now).memoryIds
      = [a, b] ∧
    (newGroup ⟨some nm, none, none⟩ freshId now).memoryIds = [] := by
  refine ⟨?_, rfl, ?_, rfl, rfl⟩
  · simp [postGroupRoute, groupValid, newGroup, hn]
  · exact List.mem_append_right _ (List.mem_singleton.mpr rfl)

/-- The group the C8 witness creates. -/
def grpNew : GroupRec :=
  { id := 5, name := "g", description := none, memoryIds := [7, 8],
    createdAt := 9 }

/-- Witness for C8 at a concrete input. -/
theorem group_create_roundtrip_witness :
    postGroupRoute [] ⟨some "g", none, some [7, 8]⟩ 5 9 =
      (⟨201, .group grpNew⟩, [grpNew]) :=
  ((group_create_roundtrip [] 7 8 5 9 "g" (by decide)).1).trans (by decide)

/-- C9: imageUrl and imagePublicId are always written together: a
successful create appends exactly the document built from the adapter's
returned pair (url = file.path, publicId = file.filename); a successful
image-bearing update rewrites the row to carry exactly that pair; a
text-only field application never touches either of the pair's fields;
and delete never rewrites any surviving row. -/
theorem image_pair_set_together :
    (∀ (db : List MemoryRec) (req : MemCreateReq) (freshId now : Nat)
        (f : UploadedFile), req.file = some f →
      (postMemoryRoute db req freshId now).1.status = 201 →
      (postMemoryRoute db req freshId now).2.1 =
        db ++ [newMemory req f freshId now] ∧
      (newMemory req f freshId now).imageUrl = f.path ∧
      (newMemory req f freshId now).imagePublicId = f.filename) ∧
    (∀ (db : List MemoryRec) (id : Nat) (req : MemUpdateReq)
        (m : MemoryRec) (f : UploadedFile) (r : String),
      findMemory db id = some m → req.file = some f →
      (putMemoryRoute db id req (.resolve r)).1.status = 200 →
      ∃ m2, (putMemoryRoute db id req (.resolve r)).2.1 =
          db.map (fun x => if x.id == id then m2 else x) ∧
        m2.imageUrl = f.path ∧ m2.imagePublicId = f.filename) ∧
    (∀ (m : MemoryRec) (req : MemUpdateReq),
      (applyTextFields m req).imageUrl = m.imageUrl ∧
      (applyTextFields m req).imagePublicId = m.imagePublicId) ∧
    (∀ (db : List MemoryRec) (id : Nat) (beh : DestroyBehavior)
        (x : MemoryRec), x ∈ (deleteMemoryRoute db id beh).2.1 →
      x ∈ db) := by
  refine ⟨?_, ?_, ?_, ?_⟩
  · intro db req freshId now f hf h201
    simp only [postMemoryRoute, hf] at h201 ⊢
    cases hv : memValid (newMemory req f freshId now) with
    | false => simp [hv] at h201
    | true =>
        refine ⟨?_, rfl, rfl⟩
        simp [hv]
  · intro db id req m f r h hf h200
    simp only [putMemoryRoute, uploadMiddlewareEvents, h, hf] at h200 ⊢
    cases hv : memValid { applyTextFields m req with
        imageUrl := f.path, imagePublicId := f.filename } with
    | false => simp [hv] at h200
    | true =>
        refine ⟨{ applyTextFields m req with
          imageUrl := f.path, imagePublicId := f.filename }, ?_, rfl, rfl⟩
        simp [hv]
  · intro m req
    exact ⟨rfl, rfl⟩
  · intro db id beh x hx
    cases hfind : findMemory db id with
    | none =>
        simp only [deleteMemoryRoute, hfind] at hx
        exact hx
    | some m =>
        cases beh with
        | resolve r =>
            simp only [deleteMemoryRoute, hfind] at hx
            exact (List.mem_filter.mp hx).1
        | reject =>
            simp only [deleteMemoryRoute, hfind] at hx
            exact hx

/-- Witness for C9 at a concrete input. -/
theorem image_pair_set_together_witness :
    (postMemoryRoute []
        ⟨some "t", some "dt", some "ds", none, some fileNew⟩ 3 4).2.1 =
      [] ++ [newMemory ⟨some "t", some "dt", some "ds", none, some fileNew⟩
        fileNew 3 4] ∧
    (newMemory ⟨some "t", some "dt", some "ds", none, some fileNew⟩
        fileNew 3 4).imageUrl = fileNew.path ∧
    (newMemory ⟨some "t", some "dt", some "ds", none, some fileNew⟩
        fileNew 3 4).imagePublicId = fileNew.filename :=
  image_pair_set_together.1 [] _ 3 4 fileNew rfl (by decide)

end GalleryBack
